import Mathlib

/-!
Verification development for the tytools repository (device monitor and
serial session machinery).  The definitions below are shallow embeddings of
the code in src/tyc/monitor.c and src/src/libtyqt/monitor.cc; theorems
settle the specification claims against them.
-/

namespace TyTools

/-! ## Session loop (src/tyc/monitor.c, function loop) -/

/-- Board capabilities (TYB_BOARD_CAPABILITY_SERIAL and friends). -/
inductive Capability
  | serial
  | uniqueIdentity
  | reset
deriving DecidableEq, Repr

/-- Error kinds relevant to the loop: TY_ERROR_IO is tested for explicitly
by the code (reconnect handling); every other negative return is other. -/
inductive TyErr
  | io
  | other
deriving DecidableEq, Repr

/-- Result of tyb_board_serial_read or tyb_board_serial_write: a negative
error code, or a byte count (read) / success (write, count unused). -/
inductive SerialRes
  | fail (e : TyErr)
  | bytes (n : Nat)
deriving DecidableEq, Repr

/-- Observable calls the loop makes, in order, while handling one poll
event.  waitForCap records the literal arguments of the
tyb_board_wait_for call.

Modelled from the spec: the definition of tyb_board_wait_for is not under
src/ (only its call site in src/tyc/monitor.c is); per the spec it is
wait_for(board, capability, want_present, timeout), blocking until the
presence of the capability matches want_present or the timeout elapses.
Here only the emitted call with its literal arguments is recorded, the
outcome being supplied by the event. -/
inductive Action
  | setAttributes
  | waitForCap (cap : Capability) (wantPresent : Bool) (timeoutMs : Int)
  | removeDesc (tag : Nat)
  | writeOut (n : Nat)
  | serialWrite (n : Nat)
deriving DecidableEq, Repr

/-- DIRECTION_INPUT flag. -/
def DIRECTION_INPUT : Nat := 1

/-- DIRECTION_OUTPUT flag. -/
def DIRECTION_OUTPUT : Nat := 2

/-- Fixed reconnect backoff (ERROR_IO_TIMEOUT, milliseconds). -/
def ERROR_IO_TIMEOUT : Int := 5000

/-- The CLI-derived globals the loop reads: reconnect flag, EOF grace
period (timeout_eof, milliseconds, negative = disabled) and the
directions bitmask. -/
structure Config where
  reconnect : Bool
  timeoutEof : Int
  directions : Nat
deriving DecidableEq, Repr

/-- Mutable loop state: the descriptor set (list of tags) and the current
poll timeout. -/
structure LoopState where
  set : List Nat
  timeout : Int
deriving DecidableEq, Repr

/-- ty_descriptor_set_remove: drop every descriptor registered under the
given tag. -/
def ty_descriptor_set_remove (set : List Nat) (tag : Nat) : List Nat :=
  set.filter (fun t => t ≠ tag)

/-- fill_descriptor_set: tag 1 is the monitor refresh channel, tag 2 the
serial handle (if DIRECTION_INPUT), tag 3 standard input
(if DIRECTION_OUTPUT).  The bit test directions & FLAG is written with
division because the two flags are the powers of two 1 and 2. -/
def fill_descriptor_set (cfg : Config) : List Nat :=
  [1] ++ (if cfg.directions / DIRECTION_INPUT % 2 = 1 then [2] else [])
      ++ (if cfg.directions / DIRECTION_OUTPUT % 2 = 1 then [3] else [])

/-- The state installed by the restart label: attributes re-applied, the
descriptor set refilled, timeout back to blocking (-1). -/
def restartState (cfg : Config) : LoopState :=
  { set := fill_descriptor_set cfg, timeout := -1 }

/-- The state installed by the reconnect backoff path: tags 2 and 3
removed, timeout set to ERROR_IO_TIMEOUT. -/
def backoffState (s : LoopState) : LoopState :=
  { set := ty_descriptor_set_remove (ty_descriptor_set_remove s.set 2) 3,
    timeout := ERROR_IO_TIMEOUT }

/-- The state installed by the EOF path when timeout_eof is non-negative:
tags 1 and 3 removed, timeout set to timeout_eof. -/
def eofState (cfg : Config) (s : LoopState) : LoopState :=
  { set := ty_descriptor_set_remove (ty_descriptor_set_remove s.set 1) 3,
    timeout := cfg.timeoutEof }

/-- One poll outcome together with the results of the fallible calls the
corresponding case performs.  monitorReady is tag 1 (refresh result,
whether the SERIAL capability is present afterwards, the wait_for result,
the set_attributes result after restart); serialReady is tag 2 (read
result, success of the write to standard output); inputReady is tag 3
(read from standard input: none = failed read, some n = n bytes, 0 at
EOF; and the serial write result). -/
inductive Event
  | pollFail (e : TyErr)
  | pollTimeout
  | monitorReady (refresh : Option TyErr) (present : Bool)
                 (wait : Option TyErr) (attrs : Option TyErr)
  | serialReady (read : SerialRes) (wrOut : Bool)
  | inputReady (read : Option Nat) (wr : SerialRes)
deriving DecidableEq, Repr

/-- What one loop iteration decides: keep looping in a new state, return 0
(exitNormal) or return a negative error (exitFail). -/
inductive StepResult
  | next (s : LoopState)
  | exitNormal
  | exitFail (e : TyErr)
deriving DecidableEq, Repr

/-- One iteration of the while loop in loop() of src/tyc/monitor.c: the
switch on the ty_poll result, returning the control-flow decision and the
calls performed. -/
def loop_step (cfg : Config) (s : LoopState) (ev : Event) :
    StepResult × List Action :=
  match ev with
  | .pollFail e => (.exitFail e, [])
  | .pollTimeout => (.exitNormal, [])
  | .monitorReady refresh present wait attrs =>
    match refresh with
    | some e => (.exitFail e, [])
    | none =>
      if present then (.next s, [])
      else if cfg.reconnect = false then (.exitNormal, [])
      else
        match wait with
        | some e => (.exitFail e, [.waitForCap .serial false (-1)])
        | none =>
          match attrs with
          | some e =>
            (.exitFail e, [.waitForCap .serial false (-1), .setAttributes])
          | none =>
            (.next (restartState cfg),
             [.waitForCap .serial false (-1), .setAttributes])
  | .serialReady read wrOut =>
    match read with
    | .fail e =>
      if e = TyErr.io ∧ cfg.reconnect = true then
        (.next (backoffState s), [.removeDesc 2, .removeDesc 3])
      else
        (.exitFail e, [])
    | .bytes n =>
      if wrOut then (.next s, [.writeOut n])
      else (.exitFail .io, [.writeOut n])
  | .inputReady read wr =>
    match read with
    | none => (.exitFail .io, [])
    | some 0 =>
      if 0 ≤ cfg.timeoutEof then
        (.next (eofState cfg s), [.removeDesc 1, .removeDesc 3])
      else
        (.next s, [])
    | some (n + 1) =>
      match wr with
      | .fail e =>
        if e = TyErr.io ∧ cfg.reconnect = true then
          (.next (backoffState s),
           [.serialWrite (n + 1), .removeDesc 2, .removeDesc 3])
        else
          (.exitFail e, [.serialWrite (n + 1)])
      | .bytes _ => (.next s, [.serialWrite (n + 1)])

/-- The tag a ready event corresponds to (none for timeout / poll error). -/
def eventTag : Event → Option Nat
  | .pollFail _ => none
  | .pollTimeout => none
  | .monitorReady _ _ _ _ => some 1
  | .serialReady _ _ => some 2
  | .inputReady _ _ => some 3

/-- ty_poll only reports tags that are in the descriptor set: an event is
possible in a state only if its tag is registered. -/
def eventValidB (s : LoopState) (ev : Event) : Bool :=
  match eventTag ev with
  | some t => s.set.contains t
  | none => true

/-- A whole event sequence is possible from a state when every consumed
event is possible in the state it is consumed in (events after an exit
are unconstrained because the loop no longer polls). -/
def validFromB (cfg : Config) : LoopState → List Event → Bool
  | _, [] => true
  | s, ev :: evs =>
    eventValidB s ev &&
      (match (loop_step cfg s ev).1 with
       | .next s2 => validFromB cfg s2 evs
       | _ => true)

/-- The concatenated actions the loop performs on an event sequence
(stopping at the first exit). -/
def runTrace (cfg : Config) : LoopState → List Event → List Action
  | _, [] => []
  | s, ev :: evs =>
    match loop_step cfg s ev with
    | (.next s2, as) => as ++ runTrace cfg s2 evs
    | (_, as) => as

/-- Whether the loop consumes a monitor-refresh (tag 1) event somewhere
along the event sequence before exiting. -/
def consumesMonitor (cfg : Config) : LoopState → List Event → Bool
  | _, [] => false
  | s, ev :: evs =>
    (eventTag ev == some 1) ||
      (match (loop_step cfg s ev).1 with
       | .next s2 => consumesMonitor cfg s2 evs
       | _ => false)

/-- Whether an action is a wait_for call. -/
def isWaitFor : Action → Bool
  | .waitForCap _ _ _ => true
  | _ => false

/-! ## Option parsing (src/tyc/monitor.c, function monitor, the -d / -f
switch cases) -/

/-- Character sizes below the default of 8 bits
(TYD_SERIAL_5BITS_CSIZE and friends). -/
inductive CSize
  | five
  | six
  | seven
deriving DecidableEq, Repr

/-- Flow-control modes (TYD_SERIAL_XONXOFF_FLOW, TYD_SERIAL_RTSCTS_FLOW). -/
inductive FlowControl
  | xonxoff
  | rtscts
deriving DecidableEq, Repr

/-- Modelled from the spec: the TYD_SERIAL_* flag constants live in the
libty device header, which is not under src/.  The spec fixes only the
option sets (data bits 5 to 8, parity none/odd/even, flow control
none/xon-xoff/rts-cts) and that each option occupies its own mask of the
flag word; the device flag word is therefore modelled as one field per
mask, where clearing a mask sets its field to Option.none and setting a
flag of that mask stores it in the field.  The csize field holds
Option.none for the default of 8 bits, the flow field Option.none for no
flow control. -/
structure DeviceFlags where
  csize : Option CSize
  flow : Option FlowControl
deriving DecidableEq, Repr

/-- The case 'd' body (databits): clear the character-size bits, then set
them from the argument; any value other than 5, 6, 7 or 8 is a parameter
error.  In the source this case has no break and falls through into
case 'f'. -/
def case_databits (optarg : String) (flags : DeviceFlags) :
    Except Unit DeviceFlags :=
  let flags := { flags with csize := none }
  if optarg = "5" then .ok { flags with csize := some .five }
  else if optarg = "6" then .ok { flags with csize := some .six }
  else if optarg = "7" then .ok { flags with csize := some .seven }
  else if optarg ≠ "8" then .error ()
  else .ok flags

/-- The case 'f' body (flow control), transcribed exactly: clear the
flow-control bits, set them for x/xonxoff and h/rtscts, and take the
parameter-error branch only when the argument differs from "n" AND equals
"none" (the source compares "none" with == 0, unlike the parity case
which uses != 0 for both spellings). -/
def case_flow (optarg : String) (flags : DeviceFlags) :
    Except Unit DeviceFlags :=
  let flags := { flags with flow := none }
  if optarg = "x" ∨ optarg = "xonxoff" then
    .ok { flags with flow := some .xonxoff }
  else if optarg = "h" ∨ optarg = "rtscts" then
    .ok { flags with flow := some .rtscts }
  else if optarg ≠ "n" ∧ optarg = "none" then .error ()
  else .ok flags

/-- Handling of a -d / --databits option: the case 'd' body and then,
through the missing break, the case 'f' body on the same argument. -/
def handle_databits (optarg : String) (flags : DeviceFlags) :
    Except Unit DeviceFlags :=
  (case_databits optarg flags).bind (case_flow optarg)

/-- Handling of a -f / --flow option (case 'f' alone, which ends with
break). -/
def handle_flow (optarg : String) (flags : DeviceFlags) :
    Except Unit DeviceFlags :=
  case_flow optarg flags

/-! ## Qt Monitor (src/src/libtyqt/monitor.cc) -/

/-- Model notifications and lifecycle signals the Monitor emits: the
begin/endRemoveRows and begin/endInsertRows pairs (with the literal first
and last row arguments) and the boardAdded signal. -/
inductive Notif
  | removeRows (first last : Nat)
  | insertRows (first last : Nat)
  | boardAdded (id : Nat)
deriving DecidableEq, Repr

/-- The Monitor state the claims depend on: whether start() succeeded and
is active, whether the backend subscription object (monitor_) exists,
whether the descriptor notifier is enabled, and the ordered board
collection (boards identified by their ty_board handle). -/
structure QtMonitor where
  started : Bool
  monitorCreated : Bool
  notifierEnabled : Bool
  boards : List Nat
deriving DecidableEq, Repr

/-- Monitor::start().  newOk is the outcome of creating and registering
the backend subscription (ty_monitor_new + callback + descriptors),
startOk the outcome of ty_monitor_start.  Returns the C++ return value,
the new state and the notifications emitted. -/
def Monitor_start (newOk startOk : Bool) (s : QtMonitor) :
    Bool × QtMonitor × List Notif :=
  if s.started then (true, s, [])
  else
    match s.monitorCreated, newOk with
    | false, false => (false, s, [])
    | _, _ =>
      let s2 := { s with monitorCreated := true }
      if startOk then
        (true, { s2 with notifierEnabled := true, started := true }, [])
      else
        (false, s2, [])

/-- Monitor::stop(): no-op unless started; otherwise clear the board
collection inside a remove-rows notification (emitted only when the
collection was non-empty, with the literal arguments 0 and
boards_.size()), disable the notifier and mark the monitor stopped. -/
def Monitor_stop (s : QtMonitor) : QtMonitor × List Notif :=
  if s.started = false then (s, [])
  else
    let notifs :=
      if s.boards.isEmpty then [] else [Notif.removeRows 0 s.boards.length]
    ({ s with boards := [], notifierEnabled := false, started := false },
     notifs)

/-- Monitor::boardCount(). -/
def Monitor_boardCount (s : QtMonitor) : Nat :=
  s.boards.length

/-- Monitor::board(i): bounds check, then direct indexing. -/
def Monitor_board (s : QtMonitor) (i : Nat) : Option Nat :=
  if h : i < s.boards.length then some (s.boards.get ⟨i, h⟩) else none

/-- The backend events the model tracks: TY_MONITOR_EVENT_ADDED, and the
dropped path (TY_MONITOR_EVENT_DROPPED leading, through refreshBoard and
the dropped signal, to removeBoardItem). -/
inductive BoardEvent
  | added (id : Nat)
  | dropped (id : Nat)
deriving DecidableEq, Repr

/-- Monitor::handleAddedEvent: push_back the new board at the end of the
collection, wrapped in an insert-rows notification for row
boards_.size(), then emit boardAdded. -/
def Monitor_handleAdded (s : QtMonitor) (id : Nat) : QtMonitor × List Notif :=
  ({ s with boards := s.boards ++ [id] },
   [Notif.insertRows s.boards.length s.boards.length, Notif.boardAdded id])

/-- The dropped path: findBoardIterator locates the first entry holding
this ty_board (end() when absent, in which case handleChangedEvent
returns early), and Monitor::removeBoardItem erases at that position
inside a remove-rows notification for that row. -/
def Monitor_removeBoard (s : QtMonitor) (id : Nat) : QtMonitor × List Notif :=
  match s.boards.indexOf? id with
  | none => (s, [])
  | some i =>
    ({ s with boards := s.boards.eraseIdx i }, [Notif.removeRows i i])

/-- Dispatch of one backend event (Monitor::handleEvent). -/
def Monitor_applyEvent (s : QtMonitor) (e : BoardEvent) : QtMonitor × List Notif :=
  match e with
  | .added id => Monitor_handleAdded s id
  | .dropped id => Monitor_removeBoard s id

/-- Fold a sequence of backend events over the Monitor state. -/
def Monitor_applyEvents (s : QtMonitor) (es : List BoardEvent) : QtMonitor :=
  es.foldl (fun s e => (Monitor_applyEvent s e).1) s

/-! ## Theorems about the session loop -/

/-- C1 (counterexample): at a concrete state, when the monitor refresh
reveals the SERIAL capability absent under the reconnect policy, the
wait_for call the loop performs carries false, not true, as its
presence argument (the source passes the literal false where the spec
signature names want_present). -/
theorem C1_wait_arg_counterexample :
    Action.waitForCap Capability.serial true (-1) ∉
      (loop_step ⟨true, 200, 3⟩ (restartState ⟨true, 200, 3⟩)
        (.monitorReady none false none none)).2 ∧
    Action.waitForCap Capability.serial false (-1) ∈
      (loop_step ⟨true, 200, 3⟩ (restartState ⟨true, 200, 3⟩)
        (.monitorReady none false none none)).2 := by
  decide

/-- C1 (amended): when a monitor refresh reveals the SERIAL capability
absent and reconnect is enabled, the loop calls wait_for for SERIAL with
third argument false and timeout -1 and, after the wait returns, goes to
restart: the serial attributes are re-applied and the main loop is
re-entered with a refilled descriptor set and a blocking timeout; with
reconnect disabled it returns 0 instead. -/
theorem C1_reconnect_wait (cfg : Config) (s : LoopState) :
    (cfg.reconnect = false →
      loop_step cfg s (.monitorReady none false none none) =
        (.exitNormal, [])) ∧
    (cfg.reconnect = true →
      loop_step cfg s (.monitorReady none false none none) =
        (.next (restartState cfg),
         [.waitForCap .serial false (-1), .setAttributes])) := by
  refine ⟨fun h => ?_, fun h => ?_⟩ <;> simp [loop_step, h]

/-- Witness for C1_reconnect_wait at concrete configurations. -/
theorem C1_reconnect_wait_witness :
    loop_step ⟨false, 200, 3⟩ (restartState ⟨false, 200, 3⟩)
        (.monitorReady none false none none) = (.exitNormal, []) ∧
    loop_step ⟨true, 200, 3⟩ (restartState ⟨true, 200, 3⟩)
        (.monitorReady none false none none) =
      (.next (restartState ⟨true, 200, 3⟩),
       [.waitForCap .serial false (-1), .setAttributes]) :=
  ⟨(C1_reconnect_wait ⟨false, 200, 3⟩ (restartState ⟨false, 200, 3⟩)).1 rfl,
   (C1_reconnect_wait ⟨true, 200, 3⟩ (restartState ⟨true, 200, 3⟩)).2 rfl⟩

/-- C2 (counterexample): with a negative EOF grace value, a zero-byte
read from the input source does NOT exit the session: the loop continues
with the state unchanged (the usage text of the tool describes -1 as
disabling the close-after-EOF timeout). -/
theorem C2_negative_eof_counterexample :
    loop_step ⟨false, -1, 3⟩ (restartState ⟨false, -1, 3⟩)
        (.inputReady (some 0) (.bytes 0)) =
      (.next (restartState ⟨false, -1, 3⟩), []) ∧
    (loop_step ⟨false, -1, 3⟩ (restartState ⟨false, -1, 3⟩)
        (.inputReady (some 0) (.bytes 0))).1 ≠ .exitNormal := by
  decide

/-- C2 (amended): on a zero-byte read with a non-negative EOF grace value
the loop removes the input descriptor (tag 3, along with the monitor tag
1) from the wait set and arms the poll timeout to the grace value; the
timeout is not touched by subsequent successful device reads; poll
timeout then ends the session normally; with a negative grace value the
loop continues unchanged instead of exiting. -/
theorem C2_eof_grace (cfg : Config) (s s2 : LoopState) (n : Nat)
    (w : SerialRes) :
    (0 ≤ cfg.timeoutEof →
      loop_step cfg s (.inputReady (some 0) w) =
        (.next (eofState cfg s), [.removeDesc 1, .removeDesc 3]) ∧
      (eofState cfg s).timeout = cfg.timeoutEof ∧
      3 ∉ (eofState cfg s).set) ∧
    loop_step cfg s2 (.serialReady (.bytes n) true) =
      (.next s2, [.writeOut n]) ∧
    loop_step cfg s2 .pollTimeout = (.exitNormal, []) ∧
    (cfg.timeoutEof < 0 →
      loop_step cfg s (.inputReady (some 0) w) = (.next s, [])) := by
  refine ⟨fun h => ⟨?_, rfl, ?_⟩, ?_, rfl, fun h => ?_⟩
  · simp [loop_step, h]
  · simp [eofState, ty_descriptor_set_remove, List.mem_filter]
  · simp [loop_step]
  · simp [loop_step, not_le.mpr h]

/-- Witness for C2_eof_grace at concrete inputs. -/
theorem C2_eof_grace_witness :
    (loop_step ⟨false, 200, 3⟩ (restartState ⟨false, 200, 3⟩)
        (.inputReady (some 0) (.bytes 0)) =
      (.next (eofState ⟨false, 200, 3⟩ (restartState ⟨false, 200, 3⟩)),
       [.removeDesc 1, .removeDesc 3])) ∧
    (loop_step ⟨false, -1, 3⟩ (restartState ⟨false, -1, 3⟩)
        (.inputReady (some 0) (.bytes 0)) =
      (.next (restartState ⟨false, -1, 3⟩), [])) :=
  ⟨((C2_eof_grace ⟨false, 200, 3⟩ (restartState ⟨false, 200, 3⟩)
      (restartState ⟨false, 200, 3⟩) 0 (.bytes 0)).1 (by decide)).1,
   (C2_eof_grace ⟨false, -1, 3⟩ (restartState ⟨false, -1, 3⟩)
      (restartState ⟨false, -1, 3⟩) 0 (.bytes 0)).2.2.2 (by decide)⟩

/-- C3: on a serial read failing with TY_ERROR_IO, the loop returns the
error at once when reconnect is disabled (no further call is made), and
under the reconnect policy it removes tags 2 and 3 from the wait set,
arms the fixed backoff timeout ERROR_IO_TIMEOUT and keeps looping. -/
theorem C3_serial_read_error (cfg : Config) (s : LoopState) (w : Bool) :
    (cfg.reconnect = false →
      loop_step cfg s (.serialReady (.fail .io) w) = (.exitFail .io, [])) ∧
    (cfg.reconnect = true →
      loop_step cfg s (.serialReady (.fail .io) w) =
        (.next (backoffState s), [.removeDesc 2, .removeDesc 3]) ∧
      (backoffState s).timeout = ERROR_IO_TIMEOUT ∧
      2 ∉ (backoffState s).set ∧ 3 ∉ (backoffState s).set) := by
  refine ⟨fun h => ?_, fun h => ⟨?_, rfl, ?_, ?_⟩⟩
  · simp [loop_step, h]
  · simp [loop_step, h]
  · simp [backoffState, ty_descriptor_set_remove, List.mem_filter]
  · simp [backoffState, ty_descriptor_set_remove, List.mem_filter]

/-- Witness for C3_serial_read_error at concrete inputs. -/
theorem C3_serial_read_error_witness :
    loop_step ⟨false, 200, 3⟩ (restartState ⟨false, 200, 3⟩)
        (.serialReady (.fail .io) true) = (.exitFail .io, []) ∧
    loop_step ⟨true, 200, 3⟩ (restartState ⟨true, 200, 3⟩)
        (.serialReady (.fail .io) true) =
      (.next (backoffState (restartState ⟨true, 200, 3⟩)),
       [.removeDesc 2, .removeDesc 3]) :=
  ⟨(C3_serial_read_error ⟨false, 200, 3⟩ (restartState ⟨false, 200, 3⟩)
      true).1 rfl,
   ((C3_serial_read_error ⟨true, 200, 3⟩ (restartState ⟨true, 200, 3⟩)
      true).2 rfl).1⟩

/-- C4 (counterexample): with the reconnect backoff armed (state produced
by the serial I/O-error path, timeout = ERROR_IO_TIMEOUT), a poll timeout
makes the loop return 0 — the session ends normally; it does not return
to the top of the loop through the restart path. -/
theorem C4_backoff_timeout_counterexample :
    loop_step ⟨true, 200, 3⟩ (backoffState (restartState ⟨true, 200, 3⟩))
        .pollTimeout = (.exitNormal, []) ∧
    (loop_step ⟨true, 200, 3⟩ (backoffState (restartState ⟨true, 200, 3⟩))
        .pollTimeout).1 ≠
      .next (restartState ⟨true, 200, 3⟩) := by
  decide

/-- C4 (amended): whenever poll reports a timeout the session loop exits
normally (case 0 returns 0), regardless of whether the armed timeout was
the reconnect backoff or the EOF grace period; no timeout re-enters the
loop. -/
theorem C4_timeout_exits (cfg : Config) (s : LoopState) :
    loop_step cfg s .pollTimeout = (.exitNormal, []) := by
  simp [loop_step]

/-- Once tag 1 is out of the descriptor set, a valid event is not a
monitor-refresh event, one loop step emits no wait_for call, and any
successor state still lacks tag 1 (the only branch that re-adds it is
the restart path of a monitor-refresh event). -/
theorem step_no_tag1 (cfg : Config) (s : LoopState) (ev : Event)
    (h1 : 1 ∉ s.set) (hv : eventValidB s ev = true) :
    eventTag ev ≠ some 1 ∧
    (∀ a ∈ (loop_step cfg s ev).2, isWaitFor a = false) ∧
    (∀ s2, (loop_step cfg s ev).1 = .next s2 → 1 ∉ s2.set) := by
  cases ev with
  | pollFail e =>
    exact ⟨by simp [eventTag], by simp [loop_step], by simp [loop_step]⟩
  | pollTimeout =>
    exact ⟨by simp [eventTag], by simp [loop_step], by simp [loop_step]⟩
  | monitorReady refresh present wait attrs =>
    exact absurd (by simpa [eventValidB, eventTag] using hv) h1
  | serialReady read wrOut =>
    refine ⟨by simp [eventTag], ?_, ?_⟩
    · cases read with
      | fail e =>
        by_cases hc : e = TyErr.io ∧ cfg.reconnect = true
        · simp [loop_step, hc, isWaitFor]
        · simp [loop_step, hc]
      | bytes n => cases wrOut <;> simp [loop_step, isWaitFor]
    · intro s2 hs2
      cases read with
      | fail e =>
        by_cases hc : e = TyErr.io ∧ cfg.reconnect = true
        · simp [loop_step, hc] at hs2
          subst hs2
          simp [backoffState, ty_descriptor_set_remove, List.mem_filter]
          exact h1
        · simp [loop_step, hc] at hs2
      | bytes n =>
        cases wrOut <;> simp [loop_step] at hs2
        subst hs2
        exact h1
  | inputReady read wr =>
    refine ⟨by simp [eventTag], ?_, ?_⟩
    · match read with
      | none => simp [loop_step]
      | some 0 =>
        by_cases hc : 0 ≤ cfg.timeoutEof <;> simp [loop_step, hc, isWaitFor]
      | some (n + 1) =>
        cases wr with
        | fail e =>
          by_cases hc : e = TyErr.io ∧ cfg.reconnect = true <;>
            simp [loop_step, hc, isWaitFor]
        | bytes m => simp [loop_step, isWaitFor]
    · intro s2 hs2
      match read with
      | none => simp [loop_step] at hs2
      | some 0 =>
        by_cases hc : 0 ≤ cfg.timeoutEof
        · simp [loop_step, hc] at hs2
          subst hs2
          simp [eofState, ty_descriptor_set_remove, List.mem_filter]
        · simp [loop_step, hc] at hs2
          subst hs2
          exact h1
      | some (n + 1) =>
        cases wr with
        | fail e =>
          by_cases hc : e = TyErr.io ∧ cfg.reconnect = true
          · simp [loop_step, hc] at hs2
            subst hs2
            simp [backoffState, ty_descriptor_set_remove, List.mem_filter]
            exact h1
          · simp [loop_step, hc] at hs2
        | bytes m =>
          simp [loop_step] at hs2
          subst hs2
          exact h1

/-- Along any possible event sequence from a state whose descriptor set
lacks tag 1, the loop never consumes a monitor-refresh event and its
trace contains no wait_for call. -/
theorem run_no_tag1 (cfg : Config) :
    ∀ (evs : List Event) (s : LoopState), 1 ∉ s.set →
      validFromB cfg s evs = true →
      consumesMonitor cfg s evs = false ∧
      (∀ a ∈ runTrace cfg s evs, isWaitFor a = false) := by
  intro evs
  induction evs with
  | nil =>
    intro s h1 _
    exact ⟨rfl, by simp [runTrace]⟩
  | cons ev evs ih =>
    intro s h1 hv
    have hv1 : eventValidB s ev = true := by
      have := congrArg (fun b => b) hv
      simp [validFromB, Bool.and_eq_true] at hv
      exact hv.1
    have hv2 := by
      simp [validFromB, Bool.and_eq_true] at hv
      exact hv.2
    obtain ⟨htag, hacts, hnext⟩ := step_no_tag1 cfg s ev h1 hv1
    cases hres : loop_step cfg s ev with
    | mk res acts =>
      cases res with
      | next s2 =>
        have h1b : 1 ∉ s2.set := hnext s2 (by rw [hres])
        have hrec := ih s2 h1b (by
          have := hv2
          rw [hres] at this
          simpa using this)
        constructor
        · simp only [consumesMonitor, hres]
          simp [htag, hrec.1]
        · intro a ha
          simp only [runTrace, hres] at ha
          rcases List.mem_append.1 ha with hL | hR
          · exact hacts a (by rw [hres]; exact hL)
          · exact hrec.2 a hR
      | exitNormal =>
        constructor
        · simp only [consumesMonitor, hres]
          simp [htag]
        · intro a ha
          simp only [runTrace, hres] at ha
          exact hacts a (by rw [hres]; exact ha)
      | exitFail e =>
        constructor
        · simp only [consumesMonitor, hres]
          simp [htag]
        · intro a ha
          simp only [runTrace, hres] at ha
          exact hacts a (by rw [hres]; exact ha)

/-- C10: after end-of-input with a non-negative EOF grace value the loop
state has neither tag 1 nor tag 3 in the wait set, and from that state no
possible continuation ever consumes a monitor-refresh event or performs a
wait_for call: under the reconnect policy, a serial capability loss after
EOF can no longer reach the wait-for-reappearance path. -/
theorem C10_no_monitor_after_eof (cfg : Config) (s : LoopState)
    (w : SerialRes) (evs : List Event) (h : 0 ≤ cfg.timeoutEof)
    (hv : validFromB cfg (eofState cfg s) evs = true) :
    (loop_step cfg s (.inputReady (some 0) w)).1 = .next (eofState cfg s) ∧
    1 ∉ (eofState cfg s).set ∧ 3 ∉ (eofState cfg s).set ∧
    consumesMonitor cfg (eofState cfg s) evs = false ∧
    (∀ a ∈ runTrace cfg (eofState cfg s) evs, isWaitFor a = false) := by
  have h1 : 1 ∉ (eofState cfg s).set := by
    simp [eofState, ty_descriptor_set_remove, List.mem_filter]
  have h3 : 3 ∉ (eofState cfg s).set := by
    simp [eofState, ty_descriptor_set_remove, List.mem_filter]
  have hrun := run_no_tag1 cfg evs (eofState cfg s) h1 hv
  exact ⟨by simp [loop_step, h], h1, h3, hrun.1, hrun.2⟩

/-- Witness for C10_no_monitor_after_eof at a concrete configuration,
state and continuation. -/
theorem C10_no_monitor_after_eof_witness :
    (loop_step ⟨true, 200, 3⟩ (restartState ⟨true, 200, 3⟩)
        (.inputReady (some 0) (.bytes 0))).1 =
      .next (eofState ⟨true, 200, 3⟩ (restartState ⟨true, 200, 3⟩)) ∧
    1 ∉ (eofState ⟨true, 200, 3⟩ (restartState ⟨true, 200, 3⟩)).set ∧
    3 ∉ (eofState ⟨true, 200, 3⟩ (restartState ⟨true, 200, 3⟩)).set ∧
    consumesMonitor ⟨true, 200, 3⟩
      (eofState ⟨true, 200, 3⟩ (restartState ⟨true, 200, 3⟩))
      [.serialReady (.bytes 4) true, .pollTimeout] = false ∧
    (∀ a ∈ runTrace ⟨true, 200, 3⟩
        (eofState ⟨true, 200, 3⟩ (restartState ⟨true, 200, 3⟩))
        [.serialReady (.bytes 4) true, .pollTimeout],
      isWaitFor a = false) :=
  C10_no_monitor_after_eof ⟨true, 200, 3⟩ (restartState ⟨true, 200, 3⟩)
    (.bytes 0) [.serialReady (.bytes 4) true, .pollTimeout]
    (by decide) (by decide)

/-! ## Theorems about option parsing -/

/-- C5: evaluation of the flow-control branch at the failing inputs: the
value none is REJECTED with a parameter error (the source compares it
with == 0 in the error condition, unlike the parity branch), the
undocumented value junk is silently accepted with the flow bits cleared,
while n, x, xonxoff, h and rtscts are accepted. -/
theorem C5_flow_parsing_eval :
    handle_flow "none" { csize := none, flow := some .rtscts } =
      .error () ∧
    handle_flow "junk" { csize := none, flow := some .rtscts } =
      .ok { csize := none, flow := none } ∧
    handle_flow "n" { csize := none, flow := some .rtscts } =
      .ok { csize := none, flow := none } ∧
    handle_flow "x" { csize := none, flow := none } =
      .ok { csize := none, flow := some .xonxoff } ∧
    handle_flow "xonxoff" { csize := none, flow := none } =
      .ok { csize := none, flow := some .xonxoff } ∧
    handle_flow "h" { csize := none, flow := none } =
      .ok { csize := none, flow := some .rtscts } ∧
    handle_flow "rtscts" { csize := none, flow := none } =
      .ok { csize := none, flow := some .rtscts } :=
  ⟨rfl, rfl, rfl, rfl, rfl, rfl, rfl⟩

/-- C6: for every valid databits argument (5, 6, 7 or 8), the -d handler
runs the case 'd' body successfully and then, through the missing break,
hands the same argument string to the case 'f' body; the combined result
succeeds and has the flow-control bits cleared, the character size being
the one the argument selected. -/
theorem C6_databits_fallthrough (optarg : String) (flags : DeviceFlags)
    (h : optarg = "5" ∨ optarg = "6" ∨ optarg = "7" ∨ optarg = "8") :
    ∃ f1, case_databits optarg flags = .ok f1 ∧
      handle_databits optarg flags = case_flow optarg f1 ∧
      handle_databits optarg flags = .ok { f1 with flow := none } := by
  rcases h with h | h | h | h <;> subst h
  · exact ⟨{ flags with csize := some .five }, rfl, rfl, rfl⟩
  · exact ⟨{ flags with csize := some .six }, rfl, rfl, rfl⟩
  · exact ⟨{ flags with csize := some .seven }, rfl, rfl, rfl⟩
  · exact ⟨{ flags with csize := none }, rfl, rfl, rfl⟩

/-- Witness for C6_databits_fallthrough at a concrete argument and flag
word. -/
theorem C6_databits_fallthrough_witness :
    ∃ f1, case_databits "5" { csize := none, flow := some .rtscts } =
        .ok f1 ∧
      handle_databits "5" { csize := none, flow := some .rtscts } =
        case_flow "5" f1 ∧
      handle_databits "5" { csize := none, flow := some .rtscts } =
        .ok { f1 with flow := none } :=
  C6_databits_fallthrough "5" { csize := none, flow := some .rtscts }
    (Or.inl rfl)

/-! ## Theorems about the Qt Monitor -/

/-- C7: stop() on a started monitor empties the board collection and
emits a remove-rows notification when it held boards, start() on a
started monitor returns true and changes nothing (in particular no new
backend subscription is created), and stop() on a stopped monitor
changes nothing. -/
theorem C7_stop_start (s : QtMonitor) (newOk startOk : Bool) :
    (s.started = true →
      Monitor_boardCount (Monitor_stop s).1 = 0 ∧
      (Monitor_stop s).1.started = false ∧
      (s.boards ≠ [] →
        (Monitor_stop s).2 = [Notif.removeRows 0 s.boards.length]) ∧
      Monitor_start newOk startOk s = (true, s, [])) ∧
    (s.started = false → Monitor_stop s = (s, [])) := by
  refine ⟨fun h => ⟨?_, ?_, fun hb => ?_, ?_⟩, fun h => ?_⟩
  · simp [Monitor_stop, Monitor_boardCount, h]
  · simp [Monitor_stop, h]
  · simp [Monitor_stop, h, hb]
  · simp [Monitor_start, h]
  · simp [Monitor_stop, h]

/-- Witness for C7_stop_start at concrete monitor states. -/
theorem C7_stop_start_witness :
    Monitor_boardCount (Monitor_stop ⟨true, true, true, [5]⟩).1 = 0 ∧
    (Monitor_stop ⟨true, true, true, [5]⟩).2 =
      [Notif.removeRows 0 [5].length] ∧
    Monitor_start true true ⟨true, true, true, [5]⟩ =
      (true, ⟨true, true, true, [5]⟩, []) ∧
    Monitor_stop ⟨false, true, false, []⟩ = (⟨false, true, false, []⟩, []) :=
  ⟨((C7_stop_start ⟨true, true, true, [5]⟩ true true).1 rfl).1,
   ((C7_stop_start ⟨true, true, true, [5]⟩ true true).1 rfl).2.2.1
     (by decide),
   ((C7_stop_start ⟨true, true, true, [5]⟩ true true).1 rfl).2.2.2,
   (C7_stop_start ⟨false, true, false, []⟩ true true).2 rfl⟩

/-- C8 (counterexample): the position of a board CAN change without that
board being removed: with boards 10 and 20 in the collection, board 20
sits at position 1; after the distinct board 10 is dropped, board 20
sits at position 0. -/
theorem C8_position_counterexample :
    (Monitor_applyEvents ⟨true, true, true, []⟩
        [.added 10, .added 20]).boards.indexOf? 20 = some 1 ∧
    (Monitor_applyEvents ⟨true, true, true, []⟩
        [.added 10, .added 20, .dropped 10]).boards.indexOf? 20 = some 0 ∧
    (20 : Nat) ≠ 10 := by
  decide

/-- C8 (amended): a newly added board is appended at the end of the
collection, and removal preserves the relative order of the remaining
boards: the new collection is a sublist of the old one, entries before
the erased index keep their position, and entries after it shift down by
exactly one — so a position changes only through removal of a board at a
smaller or equal index. -/
theorem C8_order_stability (s : QtMonitor) (id : Nat) :
    (Monitor_applyEvent s (.added id)).1.boards = s.boards ++ [id] ∧
    ((Monitor_applyEvent s (.dropped id)).1.boards).Sublist s.boards ∧
    (∀ i, s.boards.indexOf? id = some i → ∀ j, j < i →
      ((Monitor_applyEvent s (.dropped id)).1.boards)[j]? =
        s.boards[j]?) ∧
    (∀ i, s.boards.indexOf? id = some i → ∀ j, i ≤ j →
      ((Monitor_applyEvent s (.dropped id)).1.boards)[j]? =
        s.boards[j + 1]?) := by
  refine ⟨rfl, ?_, ?_, ?_⟩
  · cases h : s.boards.indexOf? id with
    | none =>
      simp [Monitor_applyEvent, Monitor_removeBoard, h]
    | some i =>
      simp [Monitor_applyEvent, Monitor_removeBoard, h]
      exact List.eraseIdx_sublist _ _
  · intro i hi j hj
    simp [Monitor_applyEvent, Monitor_removeBoard, hi]
    rw [List.getElem?_eraseIdx]
    simp [hj]
  · intro i hi j hj
    simp [Monitor_applyEvent, Monitor_removeBoard, hi]
    rw [List.getElem?_eraseIdx]
    simp [Nat.not_lt.mpr hj]

/-- Witness for C8_order_stability at a concrete collection. -/
theorem C8_order_stability_witness :
    (Monitor_applyEvent ⟨true, true, true, [10, 20]⟩ (.added 30)).1.boards =
      [10, 20] ++ [30] ∧
    ((Monitor_applyEvent ⟨true, true, true, [10, 20]⟩
        (.dropped 20)).1.boards).Sublist [10, 20] ∧
    ((Monitor_applyEvent ⟨true, true, true, [10, 20]⟩
        (.dropped 20)).1.boards)[0]? = ([10, 20] : List Nat)[0]? :=
  ⟨(C8_order_stability ⟨true, true, true, [10, 20]⟩ 30).1,
   (C8_order_stability ⟨true, true, true, [10, 20]⟩ 20).2.1,
   (C8_order_stability ⟨true, true, true, [10, 20]⟩ 20).2.2.1 1
     (by decide) 0 (by decide)⟩

/-- C9: the indexed accessor is total: any index at or past boardCount()
yields a null pointer, and the accessor agrees everywhere with the total
optional lookup into the collection (in particular an in-range index
yields the board stored at that position). -/
theorem C9_board_accessor_total (s : QtMonitor) (i : Nat) :
    (Monitor_boardCount s ≤ i → Monitor_board s i = none) ∧
    Monitor_board s i = s.boards[i]? := by
  refine ⟨fun h => ?_, ?_⟩
  · have h2 : s.boards.length ≤ i := h
    simp only [Monitor_board]
    rw [dif_neg (Nat.not_lt.mpr h2)]
  · by_cases h : i < s.boards.length
    · simp only [Monitor_board]
      rw [dif_pos h, List.get_eq_getElem, List.getElem?_eq_getElem h]
    · simp only [Monitor_board]
      rw [dif_neg h, List.getElem?_eq_none (Nat.not_lt.1 h)]

/-- Witness for C9_board_accessor_total at a concrete collection. -/
theorem C9_board_accessor_total_witness :
    Monitor_board ⟨false, false, false, [7]⟩ 3 = none ∧
    Monitor_board ⟨false, false, false, [7]⟩ 0 = ([7] : List Nat)[0]? :=
  ⟨(C9_board_accessor_total ⟨false, false, false, [7]⟩ 3).1 (by decide),
   (C9_board_accessor_total ⟨false, false, false, [7]⟩ 0).2⟩

end TyTools
